import Mathlib

/-!
Verification of the Content Risk Scoring Engine implemented in
`src/backend/src/controllers/protect.ts` (Zeda "Protect" mode).

The TypeScript source is shallowly embedded: every definition below is a
direct translation of the corresponding function in `protect.ts`.  JavaScript
strings are modelled as `String`/`List Char`, JavaScript numbers occurring in
the scoring pipeline are natural numbers (the pipeline only adds, multiplies
and clamps non-negative integers; the two `Math.round` sites on float products
are embedded as exact half-up integer rounding, which agrees with the IEEE
double computation on every value the code can produce there, as checked in
comments at the definition sites).  The four PII regular expressions and the
phishing pattern sets are embedded as deterministic matchers that follow the
JS regex backtracking order for those concrete patterns.
-/

namespace Protect

/-- Severity levels used by `PhishingFlag` and `LookalikeMatch` in protect.ts. -/
inductive Severity where
  | low
  | medium
  | high
deriving DecidableEq, Repr

/-- `PhishingFlag` record from protect.ts. -/
structure PhishingFlag where
  type : String
  description : String
  severity : Severity
deriving DecidableEq, Repr

/-- `LookalikeMatch` record from protect.ts. -/
structure LookalikeMatch where
  url : String
  hostname : String
  reason : String
  severity : Severity
deriving DecidableEq, Repr

/-- The four PII kinds of `PiiDetection` in protect.ts. -/
inductive PiiType where
  | email
  | phone
  | ssn
  | credit_card
deriving DecidableEq, Repr

/-- `PiiDetection` record from protect.ts. -/
structure PiiDetection where
  type : PiiType
  count : Nat
  examples : List String
deriving DecidableEq, Repr

/-- `clamp` from protect.ts: `Math.min(max, Math.max(min, value))`. -/
def clamp (value lo hi : Nat) : Nat := min hi (max lo value)

/-- `severityWeight` from protect.ts. -/
def severityWeight : Severity → Nat
  | .high => 34
  | .medium => 22
  | .low => 10

/-! ### Character and list-of-characters helpers

The code lower-cases hostnames and text with `String.prototype.toLowerCase`;
all inputs relevant here are ASCII, where it agrees with `Char.toLower`. -/

/-- ASCII lower-casing of a character list (JS `toLowerCase` on ASCII data). -/
def lowerChars (cs : List Char) : List Char := cs.map Char.toLower

/-- Recursive core of JS `String.prototype.split('.')`: current label and the
remaining labels. -/
def splitOnDotCore : List Char → List Char × List (List Char)
  | [] => ([], [])
  | c :: cs =>
    let r := splitOnDotCore cs
    if c = '.' then ([], r.1 :: r.2) else (c :: r.1, r.2)

/-- JS `String.prototype.split('.')` on a character list (always non-empty). -/
def splitOnDot (cs : List Char) : List (List Char) :=
  (splitOnDotCore cs).1 :: (splitOnDotCore cs).2

/-- JS `Array.prototype.join('.')` on a list of labels. -/
def joinDots : List (List Char) → List Char
  | [] => []
  | [l] => l
  | l :: ls => l ++ '.' :: joinDots ls

/-- JS `Array.prototype.slice(-n)`: the last `n` elements (all of them when
the list is shorter than `n`). -/
def takeRight (n : Nat) (ls : List (List Char)) : List (List Char) :=
  ls.drop (ls.length - n)

/-! ### Registrable-domain extraction (`getRegistrableDomain`) -/

/-- `SECOND_LEVEL_TLDS` from protect.ts (static multi-label public-suffix set). -/
def SECOND_LEVEL_TLDS : List (List Char) :=
  ["co.uk".data, "org.uk".data, "ac.uk".data, "gov.uk".data,
   "co.jp".data, "ne.jp".data, "or.jp".data,
   "com.au".data, "net.au".data, "org.au".data,
   "com.br".data, "com.mx".data, "com.tr".data, "com.sg".data,
   "com.hk".data, "com.tw".data, "com.my".data,
   "co.in".data, "com.ng".data, "co.za".data]

/-- Core of `getRegistrableDomain` from protect.ts, on character lists:
lower-case the host, split on `'.'`, drop empty labels (`filter(Boolean)`);
with at most two labels return the whole lower-cased host, otherwise return
the last three labels when the last two form a known second-level TLD and
the last two labels otherwise. -/
def getRegistrableDomainL (hostname : List Char) : List Char :=
  let lower := lowerChars hostname
  let parts := (splitOnDot lower).filter (fun l => decide (l ≠ []))
  if parts.length ≤ 2 then lower
  else
    let lastTwo := joinDots (takeRight 2 parts)
    if SECOND_LEVEL_TLDS.contains lastTwo ∧ 3 ≤ parts.length then
      joinDots (takeRight 3 parts)
    else lastTwo

/-- `getRegistrableDomain` from protect.ts. -/
def getRegistrableDomain (hostname : String) : String :=
  String.mk (getRegistrableDomainL hostname.data)

/-- The registrable-domain extraction as worded by the specification claim:
split the (lower-cased) host on `'.'` into labels; when the last two labels
form an entry of the public-suffix set return the last three labels joined,
otherwise the last two labels joined.  (Labels here are the non-empty
components, matching the notion of "label".) -/
def specRegistrableDomain (hostname : String) : String :=
  let labels := (splitOnDot (lowerChars hostname.data)).filter (fun l => decide (l ≠ []))
  let k := if SECOND_LEVEL_TLDS.contains (joinDots (takeRight 2 labels)) then 3 else 2
  String.mk (joinDots (takeRight k labels))

/-! ### Levenshtein distance (`levenshteinDistance`)

protect.ts fills a `(|a|+1) × (|b|+1)` matrix with
`matrix[i][0] = i`, `matrix[0][j] = j` and
`matrix[i][j] = min(matrix[i-1][j]+1, matrix[i][j-1]+1, matrix[i-1][j-1]+cost)`
where `cost` is `0` when `a[i-1] = b[j-1]` and `1` otherwise, row by row.
`levMatrix a b i j` is the matrix entry; `levenshteinDistance` computes the
rows iteratively exactly as the source loop does and returns the last entry
of the last row.  `levenshteinDistance_eq_levMatrix` connects the two. -/

/-- Entry `matrix[i][j]` of the dynamic-programming matrix of
`levenshteinDistance` in protect.ts. -/
def levMatrix (a b : List Char) : Nat → Nat → Nat
  | 0, j => j
  | i + 1, 0 => i + 1
  | i + 1, j + 1 =>
    min (levMatrix a b i (j + 1) + 1)
      (min (levMatrix a b (i + 1) j + 1)
        (levMatrix a b i j + (if a.getD i ' ' = b.getD j ' ' then 0 else 1)))

/-- One inner iteration of the row loop: given the previous row's remaining
entries `ps`, the previous row's entry one column back (`diag`), and the
current row's entry one column back (`left`), produce the rest of the
current row (columns of `ys`). -/
def levNextRowAux (x : Char) : List Char → List Nat → Nat → Nat → List Nat
  | [], _, _, _ => []
  | _ :: _, [], _, _ => []
  | y :: ys, p :: ps, diag, left =>
    let v := min (p + 1) (min (left + 1) (diag + (if x = y then 0 else 1)))
    v :: levNextRowAux x ys ps p v

/-- Row `i` of the dynamic-programming matrix, computed iteratively as the
source loop does. -/
def levRow (a b : List Char) : Nat → List Nat
  | 0 => List.range (b.length + 1)
  | i + 1 =>
    match levRow a b i with
    | [] => []
    | p0 :: rest => (p0 + 1) :: levNextRowAux (a.getD i ' ') b rest p0 (p0 + 1)

/-- `levenshteinDistance` from protect.ts (on the character lists of the two
strings): last entry of the last row of the matrix. -/
def levenshteinDistance (a b : String) : Nat :=
  (levRow a.data b.data a.data.length).getLastD 0

/-! ### PII detection and masking (`detectAndMaskPii`)

The four `String.prototype.replace(regex, fn)` passes of protect.ts are
embedded as deterministic matchers over character lists that follow the JS
backtracking order of the concrete patterns:

* email: `/[A-Z0-9._%+-]+@[A-Z0-9.-]+\.[A-Z]{2,}/gi`
* phone: `/(?:\+?1[-.\s]?)?(?:\(\d{3}\)|\d{3})[-.\s]?\d{3}[-.\s]?\d{4}/g`
* SSN:   `/\b\d{3}-\d{2}-\d{4}\b/g`
* card:  `/\b(?:\d[ -]*?){13,19}\b/g`

together with a scanning driver that, like `replace`, walks the original
string left to right, rewrites each match via the handler and resumes after
the match. -/

/-- JS `\w` (ASCII): letters, digits, underscore. -/
def isWordChar (c : Char) : Bool := c.isAlphanum || c = '_'

/-- JS `\s` restricted to ASCII whitespace. -/
def isSpaceChar (c : Char) : Bool := c.toNat = 32 || (9 ≤ c.toNat && c.toNat ≤ 13)

/-- Character class `[A-Z0-9._%+-]` (with the `i` flag) of the email regex. -/
def emailLocalChar (c : Char) : Bool :=
  c.isAlphanum || c = '.' || c = '_' || c = '%' || c = '+' || c = '-'

/-- Character class `[A-Z0-9.-]` (with the `i` flag) of the email regex. -/
def emailDomainChar (c : Char) : Bool := c.isAlphanum || c = '.' || c = '-'

/-- Character class `[-.\s]` of the phone regex. -/
def phoneSep (c : Char) : Bool := c = '-' || c = '.' || isSpaceChar c

/-- Given the maximal run `dom` of domain characters after the `@`, find the
end of the email match inside it: the greedy `[A-Z0-9.-]+` backtracks from the
right to the largest position `j ≥ 1` holding a literal `'.'` followed by at
least two letters; the match then extends over the maximal letter run after
that dot.  Returns the matched length within `dom`. -/
def emailFindDot (dom : List Char) : Option Nat :=
  let ok := fun j => decide (1 ≤ j) && (dom.getD j ' ' == '.')
    && decide (2 ≤ ((dom.drop (j + 1)).takeWhile Char.isAlpha).length)
  match ((List.range dom.length).filter ok).getLast? with
  | none => none
  | some j => some (j + 1 + ((dom.drop (j + 1)).takeWhile Char.isAlpha).length)

/-- Email regex match attempt at the head of `cs`; returns the match and the
rest of the string.  Since `'@'` is in neither class, the greedy local part
must be the maximal run of local characters and must be followed by `'@'`. -/
def emailTryAt (cs : List Char) : Option (List Char × List Char) :=
  let loc := cs.takeWhile emailLocalChar
  if loc.length = 0 then none
  else
    match cs.drop loc.length with
    | '@' :: rest =>
      let dom := rest.takeWhile emailDomainChar
      match emailFindDot dom with
      | none => none
      | some endLen => some (loc ++ '@' :: dom.take endLen, rest.drop endLen)
    | _ => none

/-- Exactly `n` digits at the head of `cs`. -/
def digitsTake (n : Nat) (cs : List Char) : Option (List Char × List Char) :=
  let d := cs.take n
  if d.length = n ∧ d.all Char.isDigit then some (d, cs.drop n) else none

/-- The two alternatives of an optional separator `[-.\s]?`, in the greedy
order the regex engine tries them. -/
def sepOpts (cs : List Char) : List (List Char × List Char) :=
  match cs with
  | c :: rest => if phoneSep c then [([c], rest), ([], cs)] else [([], cs)]
  | [] => [([], [])]

/-- Alternatives of the optional phone prefix `(?:\+?1[-.\s]?)?`, in greedy
order. -/
def phonePrefixOpts (cs : List Char) : List (List Char × List Char) :=
  (match cs with
    | '+' :: '1' :: r => (sepOpts r).map (fun s => ('+' :: '1' :: s.1, s.2))
    | _ => []) ++
  (match cs with
    | '1' :: r => (sepOpts r).map (fun s => ('1' :: s.1, s.2))
    | _ => []) ++
  [([], cs)]

/-- The phone core `(?:\(\d{3}\)|\d{3})`: parenthesised alternative first.
The two alternatives start with different characters, so no backtracking
between them is ever required after one succeeds. -/
def phoneCoreOpts (cs : List Char) : Option (List Char × List Char) :=
  match cs with
  | '(' :: r1 =>
    (match digitsTake 3 r1 with
      | some (d, r2) =>
        match r2 with
        | ')' :: r3 => some ('(' :: (d ++ [')']), r3)
        | _ => none
      | none => none)
  | _ => digitsTake 3 cs

/-- The phone tail `[-.\s]?\d{3}[-.\s]?\d{4}` with greedy optional
separators. -/
def phoneAfterCore (cs : List Char) : Option (List Char × List Char) :=
  (sepOpts cs).findSome? fun s1 =>
    (digitsTake 3 s1.2).bind fun d3 =>
      (sepOpts d3.2).findSome? fun s2 =>
        (digitsTake 4 s2.2).map fun d4 => (s1.1 ++ d3.1 ++ s2.1 ++ d4.1, d4.2)

/-- Phone regex match attempt at the head of `cs`. -/
def phoneTry (cs : List Char) : Option (List Char × List Char) :=
  (phonePrefixOpts cs).findSome? fun p =>
    (phoneCoreOpts p.2).bind fun c2 =>
      (phoneAfterCore c2.2).map fun t3 => (p.1 ++ c2.1 ++ t3.1, t3.2)

/-- `\b` at a match start: the previous character is absent or not a word
character (the first pattern character being a word character). -/
def boundaryBefore (prev : Option Char) : Bool :=
  match prev with
  | none => true
  | some p => ! isWordChar p

/-- `\b` at a match end after a word character: the next character is absent
or not a word character. -/
def boundaryAfterL (r : List Char) : Bool :=
  match r with
  | c :: _ => ! isWordChar c
  | [] => true

/-- SSN regex match attempt (`\b\d{3}-\d{2}-\d{4}\b`) at the head of `cs`,
where `prev` is the character before the current position (if any). -/
def ssnTry (prev : Option Char) (cs : List Char) : Option (List Char × List Char) :=
  if boundaryBefore prev then
    match digitsTake 3 cs with
    | some (d3, r1) =>
      (match r1 with
        | '-' :: r2 =>
          (match digitsTake 2 r2 with
            | some (d2, r3) =>
              (match r3 with
                | '-' :: r4 =>
                  (match digitsTake 4 r4 with
                    | some (d4, r5) =>
                      if boundaryAfterL r5 then
                        some (d3 ++ '-' :: (d2 ++ '-' :: d4), r5)
                      else none
                    | none => none)
                | _ => none)
            | none => none)
        | _ => none)
    | none => none
  else none

/-- Word boundary test when stopping the lazy card quantifier: `last` is the
last consumed character, `cs` the rest.  (`\b` holds iff exactly one side is a
word character.) -/
def cardStop (last : Char) (cs : List Char) : Bool :=
  isWordChar last != (match cs with | c :: _ => isWordChar c | [] => false)

/-- Backtracking engine for the card pattern `\b(?:\d[ -]*?){13,19}\b` after
the opening boundary.  `mode = true` is the lazy quantifier state with `done`
completed repetitions (stop is attempted first once `done ≥ 13`); `mode =
false` is the lazy `[ -]*?` state inside a repetition (continuing is attempted
before consuming a separator).  Returns the consumed length. -/
def cardGo : Nat → Bool → Char → List Char → Nat → Nat → Option Nat
  | 0, _, _, _, _, _ => none
  | fuel + 1, mode, last, cs, done, consumed =>
    if mode then
      if 13 ≤ done ∧ cardStop last cs then some consumed
      else if done < 19 then
        match cs with
        | c :: rest => if c.isDigit then cardGo fuel false c rest done (consumed + 1) else none
        | [] => none
      else none
    else
      match cardGo fuel true last cs (done + 1) consumed with
      | some n => some n
      | none =>
        match cs with
        | c :: rest =>
          if c = ' ' ∨ c = '-' then cardGo fuel false c rest done (consumed + 1) else none
        | [] => none

/-- Card regex match attempt at the head of `cs`: requires an opening word
boundary (previous character absent or not a word character; the first
pattern character is a digit). -/
def cardTry (prev : Option Char) (cs : List Char) : Option (List Char × List Char) :=
  if boundaryBefore prev then
    match cardGo (3 * cs.length + 50) true (prev.getD ' ') cs 0 0 with
    | some n => some (cs.take n, cs.drop n)
    | none => none
  else none

/-- Loop body of `luhnCheck` from protect.ts, processing the digit string from
its last character (`digits` arrives reversed), doubling every second digit;
a non-digit character aborts with `none` (the `Number.isNaN` early return). -/
def luhnGo : List Char → Bool → Nat → Option Nat
  | [], _, sum => some sum
  | c :: cs, dbl, sum =>
    if c.isDigit then
      let d := c.toNat - '0'.toNat
      let d2 := if dbl then 2 * d else d
      let d3 := if 9 < d2 then d2 - 9 else d2
      luhnGo cs (! dbl) (sum + d3)
    else none

/-- `luhnCheck` from protect.ts. -/
def luhnCheck (digits : List Char) : Bool :=
  match luhnGo digits.reverse false 0 with
  | some sum => sum % 10 = 0
  | none => false

/-- JS `digits.slice(-4)`. -/
def lastFour (digits : List Char) : List Char := digits.drop (digits.length - 4)

/-- `maskEmail` from protect.ts. -/
def maskEmail (value : List Char) : List Char :=
  let name := value.takeWhile (fun c => decide (c ≠ '@'))
  let hasAt := decide (name.length < value.length)
  let domain := (value.drop (name.length + 1)).takeWhile (fun c => decide (c ≠ '@'))
  if !hasAt || domain.isEmpty then "[REDACTED_EMAIL]".data
  else
    let safeName :=
      if name.length ≤ 2 then name.take 1 ++ ['*']
      else name.take 1 ++ '*' :: '*' :: '*' :: [name.getLastD ' ']
    safeName ++ '@' :: domain

/-- `maskPhone` from protect.ts. -/
def maskPhone (value : List Char) : List Char :=
  let l4 := lastFour (value.filter Char.isDigit)
  "(***) ***-".data ++ (if l4.isEmpty then "****".data else l4)

/-- `maskSsn` from protect.ts. -/
def maskSsn (value : List Char) : List Char :=
  let l4 := lastFour (value.filter Char.isDigit)
  "***-**-".data ++ (if l4.isEmpty then "****".data else l4)

/-- `maskCreditCard` from protect.ts. -/
def maskCreditCard (value : List Char) : List Char :=
  let l4 := lastFour (value.filter Char.isDigit)
  "**** **** **** ".data ++ (if l4.isEmpty then "****".data else l4)

/-- Handler of the email pass: always masks and counts. -/
def emailHandle (m : List Char) : List Char × Bool := (maskEmail m, true)

/-- Handler of the phone pass: always masks and counts. -/
def phoneHandle (m : List Char) : List Char × Bool := (maskPhone m, true)

/-- Handler of the SSN pass: always masks and counts. -/
def ssnHandle (m : List Char) : List Char × Bool := (maskSsn m, true)

/-- Handler of the card pass from protect.ts: a match whose digit run is
shorter than 13, longer than 19, or Luhn-invalid is returned unchanged and
not counted; otherwise it is masked and counted. -/
def cardHandle (m : List Char) : List Char × Bool :=
  let digits := m.filter Char.isDigit
  if digits.length < 13 ∨ 19 < digits.length ∨ luhnCheck digits = false then (m, false)
  else (maskCreditCard m, true)

/-- Scanning driver of one `String.prototype.replace(regex, fn)` pass: walk
the original characters left to right, at each position attempt the matcher
(which receives the previous original character for `\b` tests); on a match,
emit the handler's replacement, update count and (up to 3) masked examples
when the handler counted, and resume after the match. -/
def runPass (matcher : Option Char → List Char → Option (List Char × List Char))
    (handle : List Char → List Char × Bool) :
    Nat → Option Char → List Char → Nat → List String → List Char × Nat × List String
  | 0, _, cs, n, exs => (cs, n, exs)
  | fuel + 1, prev, cs, n, exs =>
    match cs with
    | [] => ([], n, exs)
    | c :: rest =>
      match matcher prev cs with
      | some (m, after) =>
        let r := handle m
        let n' := if r.2 then n + 1 else n
        let exs' := if r.2 ∧ exs.length < 3 then exs ++ [String.mk r.1] else exs
        let o := runPass matcher handle fuel (some (m.getLastD c)) after n' exs'
        (r.1 ++ o.1, o.2)
      | none =>
        let o := runPass matcher handle fuel (some c) rest n exs
        (c :: o.1, o.2)

/-- Result record of `detectAndMaskPii` in protect.ts. -/
structure PiiResult where
  maskedText : String
  detections : List PiiDetection
  totalCount : Nat
deriving DecidableEq, Repr

/-- `detectAndMaskPii` from protect.ts: the four passes run in order (email,
phone, SSN, card) on the progressively masked text; detections with zero
count are omitted; `totalCount` sums the remaining counts. -/
def detectAndMaskPii (text : String) : PiiResult :=
  if text.data.isEmpty then ⟨"", [], 0⟩
  else
    let t0 := text.data
    let e := runPass (fun _ cs => emailTryAt cs) emailHandle (t0.length + 1) none t0 0 []
    let p := runPass (fun _ cs => phoneTry cs) phoneHandle (e.1.length + 1) none e.1 0 []
    let s := runPass ssnTry ssnHandle (p.1.length + 1) none p.1 0 []
    let c := runPass cardTry cardHandle (s.1.length + 1) none s.1 0 []
    let all : List PiiDetection :=
      [⟨.email, e.2.1, e.2.2⟩, ⟨.phone, p.2.1, p.2.2⟩, ⟨.ssn, s.2.1, s.2.2⟩,
       ⟨.credit_card, c.2.1, c.2.2⟩]
    let detectionList := all.filter (fun d => decide (0 < d.count))
    ⟨String.mk c.1, detectionList, (detectionList.map (fun d => d.count)).sum⟩

/-! ### Phishing heuristic classifier (`buildPhishingFlags`)

Every pattern in the four `*_PATTERNS` arrays except the date pattern is an
alternation of literal strings (tested with `.test` against the lower-cased
text, i.e. a substring check); those are embedded as literal infix lists.
The date pattern `/by (?:\w{3},?\s*)?\d{1,2}\s+\w{3}\s+\d{4}/i` gets its own
matcher.  `.test` only asks for existence of a match, so the alternation
order inside one regex is irrelevant. -/

/-- Substring test (`String.prototype.includes` / regex literal `.test`). -/
def listContainsSub (needle hay : List Char) : Bool :=
  hay.tails.any (fun t => needle.isPrefixOf t)

/-- Does the lower-cased text contain any of the literal alternatives? -/
def containsAny (hay : List Char) (needles : List String) : Bool :=
  needles.any (fun n => listContainsSub n.data hay)

/-- Exactly `n` word characters (`\w{n}`) at the head of `cs`. -/
def wordTake (n : Nat) (cs : List Char) : Option (List Char × List Char) :=
  let d := cs.take n
  if d.length = n ∧ d.all isWordChar then some (d, cs.drop n) else none

/-- JS `\s*` (greedy, always followed here by a non-space class, so the
maximal run is forced). -/
def dropSpaces (cs : List Char) : List Char := cs.dropWhile isSpaceChar

/-- Tail `\d{1,2}\s+\w{3}\s+\d{4}` of the date pattern at the head of `cs`
(greedy `\d{1,2}`: two digits first, then one). -/
def byDateTail (cs : List Char) : Bool :=
  let go := fun (k : Nat) =>
    match digitsTake k cs with
    | some d =>
      let sp := d.2.takeWhile isSpaceChar
      if sp.length = 0 then false
      else
        match wordTake 3 (d.2.drop sp.length) with
        | some w =>
          let sp2 := w.2.takeWhile isSpaceChar
          if sp2.length = 0 then false
          else (digitsTake 4 (w.2.drop sp2.length)).isSome
        | none => false
    | none => false
  go 2 || go 1

/-- Date pattern attempt at the head of `cs`: literal `"by "`, optional
`\w{3},?\s*` group (with and without the comma), then `byDateTail`. -/
def byDateAt (cs : List Char) : Bool :=
  match cs with
  | 'b' :: 'y' :: ' ' :: r =>
    (match wordTake 3 r with
      | some w =>
        byDateTail (dropSpaces w.2) ||
        (match w.2 with
          | ',' :: r2 => byDateTail (dropSpaces r2)
          | _ => false)
      | none => false) ||
    byDateTail r
  | _ => false

/-- `.test` of the date pattern: a match at any position. -/
def byDateMatch (cs : List Char) : Bool := cs.tails.any byDateAt

/-- `URGENCY_PATTERNS` from protect.ts, minus the date pattern: each regex as
the list of its literal alternatives. -/
def URGENCY_LITERALS : List String :=
  ["urgent", "immediately", "action required",
   "within 24 hours", "within 48 hours",
   "final notice", "final reminder", "last warning",
   "suspended", "suspending",
   "account locked", "account limited", "account suspended",
   "data will be deleted", "data will be removed", "data is deleted", "data is removed",
   "permanently removed"]

/-- `CREDENTIAL_PATTERNS` from protect.ts as literal alternatives. -/
def CREDENTIAL_LITERALS : List String :=
  ["password", "login", "sign in", "verification code",
   "one-time code", "one time code",
   "ssn", "social security", "bank account", "routing number", "credit card"]

/-- `PAYMENT_PATTERNS` from protect.ts as literal alternatives
(`renew(?:al)?` matches exactly when `"renew"` occurs). -/
def PAYMENT_LITERALS : List String :=
  ["wire transfer", "gift card", "crypto", "bitcoin", "ethereum", "usdt",
   "payment required", "invoice", "update payment",
   "payment method expired", "payment method has expired",
   "renew", "subscription"]

/-- The call-to-action regex of protect.ts as literal alternatives. -/
def CTA_LITERALS : List String :=
  ["click here", "tap here", "open the link", "verify now"]

/-- The data-loss-threat regex of protect.ts as literal alternatives. -/
def DATALOSS_LITERALS : List String :=
  ["what you could lose", "to prevent data loss", "secure my data",
   "data is removed", "data is deleted", "data will be removed", "data will be deleted"]

/-- `buildPhishingFlags` from protect.ts: category checks on the lower-cased
text, one flag per matching category, in declaration order. -/
def buildPhishingFlags (text : String) : List PhishingFlag :=
  let normalized := lowerChars text.data
  (if containsAny normalized URGENCY_LITERALS || byDateMatch normalized then
    [PhishingFlag.mk "Urgency & pressure"
      "Message uses urgent or threatening language to prompt quick action." .medium]
   else []) ++
  (if containsAny normalized CREDENTIAL_LITERALS then
    [PhishingFlag.mk "Credential request"
      "Message asks for passwords, codes, or sensitive account details." .high]
   else []) ++
  (if containsAny normalized PAYMENT_LITERALS then
    [PhishingFlag.mk "Payment pressure"
      "Message references transfers, crypto, or invoices that can indicate fraud." .high]
   else []) ++
  (if containsAny normalized CTA_LITERALS then
    [PhishingFlag.mk "Call-to-action link"
      "Message encourages clicking a link, which is common in phishing." .medium]
   else []) ++
  (if containsAny normalized DATALOSS_LITERALS then
    [PhishingFlag.mk "Data loss threat"
      "Message uses data-loss fear to push immediate action." .high]
   else [])

/-! ### Phishing risk score and critical pattern -/

/-- `Math.round(severityWeight(s) * 0.9)` from `computePhishingRiskScore`:
half-up rounding of `0.9 · w`.  For the three possible weights the IEEE
double computation gives 34 ↦ 31, 22 ↦ 20, 10 ↦ 9, identical to this exact
integer rounding. -/
def lookalikeWeight (s : Severity) : Nat := (severityWeight s * 9 + 5) / 10

/-- `computePhishingRiskScore` from protect.ts. -/
def computePhishingRiskScore (phishingFlags : List PhishingFlag)
    (lookalikeMatches : List LookalikeMatch) (urlCount : Nat) : Nat :=
  let base := (phishingFlags.map (fun f => severityWeight f.severity)).sum
    + (lookalikeMatches.map (fun m => lookalikeWeight m.severity)).sum
  let hasUrgency := phishingFlags.any (fun f => f.type == "Urgency & pressure")
  let hasCta := phishingFlags.any (fun f => f.type == "Call-to-action link")
  let hasCredential := phishingFlags.any (fun f => f.type == "Credential request")
  let hasPayment := phishingFlags.any (fun f => f.type == "Payment pressure")
  let hasDataLossThreat := phishingFlags.any (fun f => f.type == "Data loss threat")
  let highSeverityCount := (phishingFlags.filter (fun f => f.severity == Severity.high)).length
  let score := base
    + (if hasUrgency && hasCta then 12 else 0)
    + (if hasCredential && hasCta then 15 else 0)
    + (if hasPayment && hasCta then 10 else 0)
    + (if 0 < lookalikeMatches.length ∧ 0 < phishingFlags.length then 10 else 0)
    + (if 3 ≤ urlCount then 5 else 0)
    + (if hasUrgency && hasCta && (hasPayment || hasCredential) && hasDataLossThreat
        then 30 else 0)
    + (if 2 ≤ highSeverityCount ∧ hasCta then 18 else 0)
  clamp score 0 100

/-- `hasCriticalScamPattern` from protect.ts. -/
def hasCriticalScamPattern (phishingFlags : List PhishingFlag) : Bool :=
  let hasUrgency := phishingFlags.any (fun f => f.type == "Urgency & pressure")
  let hasCta := phishingFlags.any (fun f => f.type == "Call-to-action link")
  let hasCredential := phishingFlags.any (fun f => f.type == "Credential request")
  let hasPayment := phishingFlags.any (fun f => f.type == "Payment pressure")
  let hasDataLossThreat := phishingFlags.any (fun f => f.type == "Data loss threat")
  hasUrgency && hasCta && (hasPayment || hasCredential) && hasDataLossThreat

/-- Risk level labels of `summarizeRiskLevel` in protect.ts. -/
inductive RiskLevel where
  | low
  | medium
  | high
deriving DecidableEq, Repr

/-- `summarizeRiskLevel` from protect.ts. -/
def summarizeRiskLevel (score : Nat) : RiskLevel :=
  if 70 ≤ score then .high
  else if 40 ≤ score then .medium
  else .low

/-- Verdict labels of `toProtectVerdict` in protect.ts. -/
inductive Verdict where
  | highRisk
  | mediumRisk
  | lowRisk
deriving DecidableEq, Repr

/-- `toProtectVerdict` from protect.ts. -/
def toProtectVerdict (score : Nat) : Verdict :=
  if 65 ≤ score then .highRisk
  else if 35 ≤ score then .mediumRisk
  else .lowRisk

/-! ### Domain reputation analyzer (`buildLookalikeMatches`)

`new URL(u).hostname` is modelled for the `http(s)` URLs this pipeline
produces: strip the scheme, take the authority up to `/`, `?` or `#`, drop
any userinfo before the last `@`, drop a `:port`, and lower-case. -/

/-- Characters after the last `'@'` (or the whole list when none). -/
def afterLastAt (cs : List Char) : List Char :=
  cs.foldl (fun acc c => if c = '@' then [] else acc ++ [c]) []

/-- Model of `new URL(rawUrl).hostname` for http(s) URLs. -/
def parseUrlHostname (url : String) : Option String :=
  let cs := url.data
  let afterScheme :=
    if "https://".data.isPrefixOf cs then some (cs.drop 8)
    else if "http://".data.isPrefixOf cs then some (cs.drop 7)
    else none
  match afterScheme with
  | none => none
  | some rest =>
    let authority := rest.takeWhile (fun c => !(c = '/' || c = '?' || c = '#'))
    let host := (afterLastAt authority).takeWhile (fun c => decide (c ≠ ':'))
    if host.isEmpty then none else some (String.mk (lowerChars host))

/-- `SUSPICIOUS_TLDS` from protect.ts. -/
def SUSPICIOUS_TLDS : List String :=
  ["zip", "mov", "xyz", "top", "click", "link", "live", "work", "shop",
   "gq", "cf", "tk", "ml"]

/-- `BRAND_DOMAINS` from protect.ts, in `Object.entries` (insertion) order. -/
def BRAND_DOMAINS : List (String × List String) :=
  [("paypal", ["paypal.com"]),
   ("google", ["google.com"]),
   ("gmail", ["gmail.com"]),
   ("apple", ["apple.com", "icloud.com"]),
   ("amazon", ["amazon.com"]),
   ("microsoft", ["microsoft.com", "outlook.com", "live.com"]),
   ("facebook", ["facebook.com"]),
   ("instagram", ["instagram.com"]),
   ("netflix", ["netflix.com"]),
   ("chase", ["chase.com"]),
   ("wells", ["wellsfargo.com"]),
   ("bankofamerica", ["bankofamerica.com"]),
   ("capitalone", ["capitalone.com"]),
   ("venmo", ["venmo.com"]),
   ("zelle", ["zellepay.com"]),
   ("cashapp", ["cash.app"]),
   ("linkedin", ["linkedin.com"]),
   ("discord", ["discord.com"]),
   ("roblox", ["roblox.com"]),
   ("steam", ["steampowered.com"])]

/-- `isIpAddress` from protect.ts: `/^\d{1,3}(\.\d{1,3}){3}$/`. -/
def isIpAddress (hostname : List Char) : Bool :=
  let labels := splitOnDot hostname
  labels.length = 4 &&
    labels.all (fun l => 1 ≤ l.length && l.length ≤ 3 && l.all Char.isDigit)

/-- The class kept by `replace(/[^a-z0-9]/g, '')` (no `i` flag). -/
def alnumLower (c : Char) : Bool := ('a' ≤ c && c ≤ 'z') || c.isDigit

/-- The brand loop body of `buildLookalikeMatches` for one URL. -/
def brandMatchesFor (rawUrl : String) (hostname : String) (host sld : List Char) :
    List LookalikeMatch :=
  BRAND_DOMAINS.flatMap (fun bd =>
    let brand := bd.1
    let normalizedBrand := brand.data.filter alnumLower
    let normalizedSld := sld.filter alnumLower
    if normalizedBrand.isEmpty || normalizedSld.isEmpty then []
    else
      let containsBrand := listContainsSub normalizedBrand host
      let isOfficial := bd.2.any (fun d => d.data.isSuffixOf host)
      (if containsBrand && !isOfficial then
        [LookalikeMatch.mk rawUrl hostname
          ("Domain references " ++ brand ++ " but does not match official domains.") .high]
       else []) ++
      (if !isOfficial && normalizedSld ≠ normalizedBrand then
        let distance := levenshteinDistance (String.mk normalizedSld) (String.mk normalizedBrand)
        if 0 < distance ∧ distance ≤ 2 then
          [LookalikeMatch.mk rawUrl hostname
            ("Domain looks similar to " ++ brand ++ " (edit distance " ++ toString distance ++ ").")
            .high]
        else []
       else []))

/-- The per-URL body of `buildLookalikeMatches` from protect.ts. -/
def lookalikeForUrl (rawUrl : String) : List LookalikeMatch :=
  match parseUrlHostname rawUrl with
  | none => []
  | some hostname =>
    let host := hostname.data
    let registrable := getRegistrableDomainL host
    let tld := joinDots ((splitOnDot registrable).drop 1)
    let sld := (splitOnDot registrable).headD host
    (if "xn--".data.isPrefixOf host then
      [LookalikeMatch.mk rawUrl hostname
        "Punycode domain detected (possible lookalike Unicode characters)." .high]
     else []) ++
    (if isIpAddress host then
      [LookalikeMatch.mk rawUrl hostname
        "URL uses a raw IP address instead of a domain." .medium]
     else []) ++
    (if SUSPICIOUS_TLDS.any (fun t => t.data == tld) then
      [LookalikeMatch.mk rawUrl hostname
        ("Uncommon or high-risk top-level domain (." ++ String.mk tld ++ ").") .medium]
     else []) ++
    (if sld.any Char.isDigit || sld.contains '-' then
      [LookalikeMatch.mk rawUrl hostname
        "Domain includes digits or hyphens (common in phishing kits)." .low]
     else []) ++
    brandMatchesFor rawUrl hostname host sld

/-- `buildLookalikeMatches` from protect.ts, including the final
deduplication by `(url, reason)`. -/
def buildLookalikeMatches (urls : List String) : List LookalikeMatch :=
  let ms := urls.flatMap lookalikeForUrl
  ms.foldl
    (fun acc m =>
      if acc.any (fun e => e.url == m.url && e.reason == m.reason) then acc
      else acc ++ [m])
    []

/-! ### Fusion (`handleProtect` score pipeline)

`handleProtect` computes the analyzer outputs, the three sub-scores, the
heuristic composite index with the critical-pattern override, and the final
`veracityIndex` (blended with the optional model assessment).  The tracker
audit reads `tracker-list.json` from disk; its two numeric outputs
(`thirdPartyCount`, `trackersFound`) are taken as parameters here and
quantified universally in the theorems.  `Math.round` over the IEEE doubles
`0.9/0.07/0.03` and `0.55/0.45` is embedded as exact half-up rounding of
`(90·p + 7·q + 3·r)/100` and `(11·h + 9·m)/20`; on the concrete values used
in the theorems below both computations agree. -/

/-- The fields of `GeminiAnalysisResult` consumed by the protect fusion. -/
structure ModelAssessment where
  veracityIndex : Nat
  summary : String
  keyFindings : List String
  fakeParts : List String
  evidenceSources : List String
deriving DecidableEq, Repr

/-- JS `String.prototype.trim` on ASCII data. -/
def jsTrim (s : String) : String :=
  String.mk (((s.data.dropWhile isSpaceChar).reverse.dropWhile isSpaceChar).reverse)

/-- `hasModelSignal` from `handleProtect`. -/
def hasModelSignal (modelResult : Option ModelAssessment) : Bool :=
  match modelResult with
  | some m =>
    0 < m.veracityIndex || 0 < (jsTrim m.summary).length || !m.keyFindings.isEmpty ||
      !m.fakeParts.isEmpty || !m.evidenceSources.isEmpty
  | none => false

/-- Output record of the score pipeline of `handleProtect`. -/
structure ProtectCoreOut where
  phishingScore : Nat
  piiScore : Nat
  privacyScore : Nat
  heuristicIndexBase : Nat
  heuristicIndex : Nat
  veracityIndex : Nat
  verdict : Verdict
  phishingLevel : RiskLevel
  piiLevel : RiskLevel
  privacyLevel : RiskLevel
  flags : List PhishingFlag
  lookalikeMatches : List LookalikeMatch
  pii : PiiResult
deriving Repr

/-- The deterministic score pipeline of `handleProtect` (protect.ts lines
1122–1241): analyzer outputs, sub-scores, heuristic index with the
critical-pattern override, model blending, verdict and per-category levels. -/
def protectCore (text : String) (urls : List String)
    (thirdPartyCount trackersFound : Nat) (hasImagePayload inputTypeUrl : Bool)
    (modelResult : Option ModelAssessment) : ProtectCoreOut :=
  let phishingFlags := buildPhishingFlags text
  let lookalikeMatches := buildLookalikeMatches urls
  let pii := detectAndMaskPii text
  let phishingScore := computePhishingRiskScore phishingFlags lookalikeMatches urls.length
  let piiScore := clamp (pii.totalCount * 18) 0 100
  let privacyScore := clamp (thirdPartyCount * 8 + trackersFound * 18) 0 100
  let heuristicIndexBase :=
    clamp ((phishingScore * 90 + piiScore * 7 + privacyScore * 3 + 50) / 100) 0 100
  let heuristicIndex :=
    if hasCriticalScamPattern phishingFlags then max heuristicIndexBase 97
    else heuristicIndexBase
  let veracityIndex :=
    match modelResult, hasModelSignal modelResult with
    | some m, true => clamp ((heuristicIndex * 11 + m.veracityIndex * 9 + 10) / 20) 0 100
    | _, _ =>
      if hasImagePayload && text.data.isEmpty then 28
      else if heuristicIndex = 0 then (if inputTypeUrl then 1 else 2)
      else heuristicIndex
  { phishingScore := phishingScore
    piiScore := piiScore
    privacyScore := privacyScore
    heuristicIndexBase := heuristicIndexBase
    heuristicIndex := heuristicIndex
    veracityIndex := veracityIndex
    verdict := toProtectVerdict veracityIndex
    phishingLevel := summarizeRiskLevel phishingScore
    piiLevel := summarizeRiskLevel piiScore
    privacyLevel := summarizeRiskLevel privacyScore
    flags := phishingFlags
    lookalikeMatches := lookalikeMatches
    pii := pii }

/-- `ProtectError` from protect.ts. -/
structure ProtectError where
  status : Nat
  message : String
deriving DecidableEq, Repr

/-- The no-usable-input rejection thrown by `handleProtect`. -/
def protectNoInputError : ProtectError :=
  ⟨400, "Provide text, URL, or resource list for protection checks."⟩

/-- `handleProtect` from protect.ts after input normalization: reject with the
400 `ProtectError` when there is no text, no URL, no resource URL and no image
payload; otherwise run the score pipeline. -/
def handleProtectCore (text : String) (urls resourceUrls : List String)
    (thirdPartyCount trackersFound : Nat) (hasImagePayload inputTypeUrl : Bool)
    (modelResult : Option ModelAssessment) : Except ProtectError ProtectCoreOut :=
  if text.data.isEmpty ∧ urls = [] ∧ resourceUrls = [] ∧ hasImagePayload = false then
    .error protectNoInputError
  else
    .ok (protectCore text urls thirdPartyCount trackersFound hasImagePayload inputTypeUrl
      modelResult)

/-! ### Specification-side formulas (for the refinement claims) -/

/-- A flag of the given category type is present (spec wording: two flags
"co-occur"). -/
def hasFlagType (flags : List PhishingFlag) (t : String) : Prop :=
  ∃ f ∈ flags, f.type = t

instance (flags : List PhishingFlag) (t : String) : Decidable (hasFlagType flags t) :=
  List.decidableBEx _ flags

/-- The phishing sub-score exactly as the claim words it: severity-weight sum
over flags, plus the rounded 90% weight sum over lookalike matches, plus the
five combination bonuses, clamped to [0,100] — with no other terms. -/
def specPhishingScoreClaimed (flags : List PhishingFlag)
    (lookalikes : List LookalikeMatch) (urlCount : Nat) : Nat :=
  clamp ((flags.map (fun f => severityWeight f.severity)).sum
    + (lookalikes.map (fun m => lookalikeWeight m.severity)).sum
    + (if hasFlagType flags "Urgency & pressure" ∧ hasFlagType flags "Call-to-action link"
        then 12 else 0)
    + (if hasFlagType flags "Credential request" ∧ hasFlagType flags "Call-to-action link"
        then 15 else 0)
    + (if hasFlagType flags "Payment pressure" ∧ hasFlagType flags "Call-to-action link"
        then 10 else 0)
    + (if 0 < lookalikes.length ∧ 0 < flags.length then 10 else 0)
    + (if 3 ≤ urlCount then 5 else 0)) 0 100

/-- The phishing sub-score formula amended with the two terms the claim
omits: the +30 critical-combination bonus and the +18 bonus for at least two
high-severity flags together with a call-to-action flag. -/
def specPhishingScoreFull (flags : List PhishingFlag)
    (lookalikes : List LookalikeMatch) (urlCount : Nat) : Nat :=
  clamp ((flags.map (fun f => severityWeight f.severity)).sum
    + (lookalikes.map (fun m => lookalikeWeight m.severity)).sum
    + (if hasFlagType flags "Urgency & pressure" ∧ hasFlagType flags "Call-to-action link"
        then 12 else 0)
    + (if hasFlagType flags "Credential request" ∧ hasFlagType flags "Call-to-action link"
        then 15 else 0)
    + (if hasFlagType flags "Payment pressure" ∧ hasFlagType flags "Call-to-action link"
        then 10 else 0)
    + (if 0 < lookalikes.length ∧ 0 < flags.length then 10 else 0)
    + (if 3 ≤ urlCount then 5 else 0)
    + (if hasFlagType flags "Urgency & pressure" ∧ hasFlagType flags "Call-to-action link"
          ∧ (hasFlagType flags "Payment pressure" ∨ hasFlagType flags "Credential request")
          ∧ hasFlagType flags "Data loss threat"
        then 30 else 0)
    + (if 2 ≤ (flags.filter (fun f => f.severity == Severity.high)).length
          ∧ hasFlagType flags "Call-to-action link"
        then 18 else 0)) 0 100

/-- Scenario-A text of the specification (all four critical categories). -/
def scenarioAText : String :=
  "Your account will be suspended immediately. Click here to verify your password within 24 hours or your data will be deleted."

/-- A model assessment carrying a signal (non-empty summary) but a zero
score, as `analyzeInputWithGemini` can return. -/
def modelZeroAssessment : ModelAssessment := ⟨0, "analysis", [], [], []⟩

/-- The flag list used to separate the claimed phishing-score formula from
the implemented one below the clamp: two high-severity flags, one of them
the call-to-action category. -/
def c2Flags : List PhishingFlag :=
  [⟨"Call-to-action link", "cta", .high⟩, ⟨"Data loss threat", "threat", .high⟩]

/-! ### Supporting lemmas -/

theorem clamp_le (value lo hi : Nat) : clamp value lo hi ≤ hi := by
  simp [clamp]

theorem joinDots_cons_cons (c : Char) (g : List Char) (gs : List (List Char)) :
    joinDots ((c :: g) :: gs) = c :: joinDots (g :: gs) := by
  cases gs <;> simp [joinDots]

theorem joinDots_splitOnDot (cs : List Char) : joinDots (splitOnDot cs) = cs := by
  induction cs with
  | nil => rfl
  | cons c cs ih =>
    by_cases hc : c = '.'
    · subst hc
      simpa [splitOnDot, splitOnDotCore, joinDots] using ih
    · simpa [splitOnDot, splitOnDotCore, hc, joinDots_cons_cons] using ih

theorem levMatrix_zero_left (a b : List Char) (j : Nat) : levMatrix a b 0 j = j := by
  simp [levMatrix]

theorem levMatrix_zero_right (a b : List Char) (i : Nat) : levMatrix a b i 0 = i := by
  cases i <;> simp [levMatrix]

theorem levMatrix_succ_succ (a b : List Char) (i j : Nat) :
    levMatrix a b (i + 1) (j + 1)
      = min (levMatrix a b i (j + 1) + 1)
          (min (levMatrix a b (i + 1) j + 1)
            (levMatrix a b i j + (if a.getD i ' ' = b.getD j ' ' then 0 else 1))) := by
  simp [levMatrix]

theorem levNextRowAux_spec (a b : List Char) (i : Nat) :
    ∀ (ys : List Char) (j0 : Nat), b.drop j0 = ys →
      levNextRowAux (a.getD i ' ') ys
          ((List.range' (j0 + 1) ys.length).map (levMatrix a b i))
          (levMatrix a b i j0) (levMatrix a b (i + 1) j0)
        = (List.range' (j0 + 1) ys.length).map (levMatrix a b (i + 1)) := by
  intro ys
  induction ys with
  | nil => intro j0 _; simp [levNextRowAux]
  | cons y ys ih =>
    intro j0 hdrop
    have hj0 : j0 < b.length := by
      by_contra hge
      rw [List.drop_eq_nil_of_le (Nat.le_of_not_lt hge)] at hdrop
      exact List.noConfusion hdrop
    have h1 : b[j0] :: b.drop (j0 + 1) = y :: ys :=
      (List.drop_eq_getElem_cons hj0 (l := b)).symm.trans hdrop
    have hy : b[j0] = y := (List.cons_eq_cons.mp h1).1
    have hys : b.drop (j0 + 1) = ys := (List.cons_eq_cons.mp h1).2
    have hby : b.getD j0 ' ' = y := by rw [List.getD_eq_getElem _ _ hj0, hy]
    have hv : min (levMatrix a b i (j0 + 1) + 1)
        (min (levMatrix a b (i + 1) j0 + 1)
          (levMatrix a b i j0 + (if a.getD i ' ' = y then 0 else 1)))
        = levMatrix a b (i + 1) (j0 + 1) := by
      rw [← hby, ← levMatrix_succ_succ]
    rw [List.length_cons, List.range'_succ, List.map_cons, List.map_cons]
    show min _ _ :: levNextRowAux _ _ _ _ _ = _
    rw [hv]
    congr 1
    have hstep : j0 + 1 + 1 = (j0 + 1) + 1 := rfl
    rw [hstep]
    exact ih (j0 + 1) hys

theorem levRow_eq_map (a b : List Char) (i : Nat) :
    levRow a b i = (List.range' 0 (b.length + 1)).map (levMatrix a b i) := by
  induction i with
  | zero =>
    simp only [levRow, List.range_eq_range']
    have : ∀ j ∈ List.range' 0 (b.length + 1), j = levMatrix a b 0 j := by
      intro j _
      rw [levMatrix_zero_left]
    calc List.range' 0 (b.length + 1)
        = (List.range' 0 (b.length + 1)).map id := (List.map_id _).symm
      _ = (List.range' 0 (b.length + 1)).map (levMatrix a b 0) :=
          List.map_congr_left fun j hj => this j hj
  | succ i ih =>
    have hspec := levNextRowAux_spec a b i b 0 (List.drop_zero b)
    rw [levMatrix_zero_right, levMatrix_zero_right] at hspec
    rw [show (0 : Nat) + 1 = 1 from rfl] at hspec
    simp only [levRow, ih, List.range'_succ, List.map_cons, levMatrix_zero_right,
      show (0 : Nat) + 1 = 1 from rfl]
    exact congrArg (List.cons (i + 1)) hspec

theorem levenshteinDistance_eq_levMatrix (a b : String) :
    levenshteinDistance a b = levMatrix a.data b.data a.data.length b.data.length := by
  unfold levenshteinDistance
  rw [levRow_eq_map]
  rw [show b.data.length + 1 = b.data.length + 1 from rfl]
  have : List.range' 0 (b.data.length + 1) = List.range' 0 b.data.length ++ [b.data.length] := by
    rw [← List.range_eq_range', ← List.range_eq_range', List.range_succ]
  rw [this, List.map_append, List.map_singleton, List.getLastD_concat]

theorem levMatrix_symm (a b : List Char) : ∀ i j, levMatrix a b i j = levMatrix b a j i := by
  intro i
  induction i with
  | zero =>
    intro j
    rw [levMatrix_zero_left, levMatrix_zero_right]
  | succ i ihi =>
    intro j
    induction j with
    | zero => rw [levMatrix_zero_left, levMatrix_zero_right]
    | succ j ihj =>
      rw [levMatrix_succ_succ, levMatrix_succ_succ, ihi (j + 1), ihi j, ihj]
      have hcost : (if a.getD i ' ' = b.getD j ' ' then 0 else 1)
          = (if b.getD j ' ' = a.getD i ' ' then (0 : Nat) else 1) := by
        simp [eq_comm]
      rw [hcost]
      omega

theorem levMatrix_eq_zero_iff (a b : List Char) :
    ∀ i j, levMatrix a b i j = 0 ↔ (i = j ∧ ∀ t, t < i → a.getD t ' ' = b.getD t ' ') := by
  intro i
  induction i with
  | zero =>
    intro j
    rw [levMatrix_zero_left]
    constructor
    · intro h; exact ⟨h.symm, fun t ht => absurd ht (Nat.not_lt_zero t)⟩
    · intro h; exact h.1.symm
  | succ i ihi =>
    intro j
    cases j with
    | zero =>
      rw [levMatrix_zero_right]
      constructor
      · intro h; exact absurd h (Nat.succ_ne_zero i)
      · intro h; exact absurd h.1 (Nat.succ_ne_zero i)
    | succ j =>
      rw [levMatrix_succ_succ]
      constructor
      · intro h
        have h3 : levMatrix a b i j + (if a.getD i ' ' = b.getD j ' ' then 0 else 1) = 0 := by
          omega
        have hz : levMatrix a b i j = 0 := by omega
        have hc : (if a.getD i ' ' = b.getD j ' ' then (0 : Nat) else 1) = 0 := by omega
        have hij := (ihi j).mp hz
        have hchar : a.getD i ' ' = b.getD j ' ' := by
          by_contra hne
          rw [if_neg hne] at hc
          exact one_ne_zero hc
        refine ⟨by omega, fun t ht => ?_⟩
        rcases Nat.lt_succ_iff_lt_or_eq.mp ht with hlt | heq
        · exact hij.2 t hlt
        · subst heq
          obtain ⟨h1, _⟩ := hij
          subst h1
          exact hchar
      · intro ⟨hij, hall⟩
        have hij' : i = j := by omega
        have hz : levMatrix a b i j = 0 :=
          (ihi j).mpr ⟨hij', fun t ht => hall t (Nat.lt_succ_of_lt ht)⟩
        have hchar : a.getD i ' ' = b.getD j ' ' := by
          rw [← hij']
          exact hall i (Nat.lt_succ_self i)
        rw [hz, if_pos hchar]
        omega

theorem levenshteinDistance_symm (a b : String) :
    levenshteinDistance a b = levenshteinDistance b a := by
  rw [levenshteinDistance_eq_levMatrix, levenshteinDistance_eq_levMatrix, levMatrix_symm]

theorem levenshteinDistance_eq_zero_iff (a b : String) :
    levenshteinDistance a b = 0 ↔ a = b := by
  rw [levenshteinDistance_eq_levMatrix, levMatrix_eq_zero_iff]
  constructor
  · intro ⟨hlen, hall⟩
    apply String.ext
    apply List.ext_getElem hlen
    intro n h1 h2
    have := hall n h1
    rwa [List.getD_eq_getElem _ _ h1, List.getD_eq_getElem _ _ h2] at this
  · intro h
    subst h
    exact ⟨rfl, fun t _ => rfl⟩

/-! ### Claim theorems -/

/-- C7: `levenshteinDistance` is symmetric and zero exactly on equal strings,
and the distance between "paypa1" and "paypal" is 1. -/
theorem c7_levenshtein_symm_zero_iff :
    (∀ a b : String, levenshteinDistance a b = levenshteinDistance b a)
    ∧ (∀ a b : String, levenshteinDistance a b = 0 ↔ a = b)
    ∧ levenshteinDistance "paypa1" "paypal" = 1 := by
  refine ⟨?_, ?_, by decide⟩
  · intro a b
    rw [levenshteinDistance_eq_levMatrix, levenshteinDistance_eq_levMatrix, levMatrix_symm]
  · intro a b
    exact levenshteinDistance_eq_zero_iff a b

/-- C10: the per-category risk level is High exactly at score ≥ 70, Medium
exactly at 40 ≤ score < 70 and Low otherwise; the overall verdict uses the
distinct thresholds 65 and 35 (so the two bandings disagree, e.g. at 67 and
37); and the response attaches `summarizeRiskLevel` of each sub-score. -/
theorem c10_risk_level_banding :
    (∀ s : Nat,
      (summarizeRiskLevel s = .high ↔ 70 ≤ s)
      ∧ (summarizeRiskLevel s = .medium ↔ 40 ≤ s ∧ s < 70)
      ∧ (summarizeRiskLevel s = .low ↔ s < 40)
      ∧ (toProtectVerdict s = .highRisk ↔ 65 ≤ s)
      ∧ (toProtectVerdict s = .mediumRisk ↔ 35 ≤ s ∧ s < 65)
      ∧ (toProtectVerdict s = .lowRisk ↔ s < 35))
    ∧ (∀ text urls tpc tf img itu m,
      (protectCore text urls tpc tf img itu m).phishingLevel
          = summarizeRiskLevel (protectCore text urls tpc tf img itu m).phishingScore
      ∧ (protectCore text urls tpc tf img itu m).piiLevel
          = summarizeRiskLevel (protectCore text urls tpc tf img itu m).piiScore
      ∧ (protectCore text urls tpc tf img itu m).privacyLevel
          = summarizeRiskLevel (protectCore text urls tpc tf img itu m).privacyScore)
    ∧ summarizeRiskLevel 67 = .medium ∧ toProtectVerdict 67 = .highRisk
    ∧ summarizeRiskLevel 37 = .low ∧ toProtectVerdict 37 = .mediumRisk := by
  refine ⟨?_, ?_, by decide, by decide, by decide, by decide⟩
  · intro s
    unfold summarizeRiskLevel toProtectVerdict
    refine ⟨?_, ?_, ?_, ?_, ?_, ?_⟩ <;> split_ifs <;> simp_all <;> omega
  · intro text urls tpc tf img itu m
    simp only [protectCore]
    exact ⟨trivial, trivial, trivial⟩

set_option maxHeartbeats 4000000 in
/-- C4 (code bug): re-running `detectAndMaskPii` on its own output is not
detection-free: masking "john.doe@example.com" yields "j***e@example.com",
and the second run again detects (and re-masks) an email, so the second
run's `totalCount` is 1, not 0. -/
theorem c4_masking_not_idempotent :
    (detectAndMaskPii "john.doe@example.com").maskedText = "j***e@example.com"
    ∧ (detectAndMaskPii "j***e@example.com").totalCount = 1
    ∧ (detectAndMaskPii "j***e@example.com").maskedText = "j***e*@example.com" := by
  refine ⟨by decide, by decide, by decide⟩

/-- C3 counterexample: the Luhn-invalid 16-digit run "1234567890123456" is
*not* left unchanged by `detectAndMaskPii`: the phone pass (whose regex has
no word-boundary anchors) matches its first eleven digits and masks them. -/
theorem c3_luhn_untouched_counterexample :
    luhnCheck ("1234567890123456".data) = false
    ∧ (detectAndMaskPii "1234567890123456").maskedText = "(***) ***-890123456"
    ∧ (detectAndMaskPii "1234567890123456").maskedText ≠ "1234567890123456" := by
  refine ⟨by decide, by decide, by decide⟩

/-- C3 amended: the credit-card pass itself never masks or counts a match
whose 13–19-digit run fails the Luhn checksum, and "1234567890123456" fails
Luhn and produces no credit-card detection (the phone pass, however, rewrites
its leading digits). -/
theorem c3_luhn_invalid_card_not_detected :
    (∀ m : List Char, 13 ≤ (m.filter Char.isDigit).length →
      (m.filter Char.isDigit).length ≤ 19 →
      luhnCheck (m.filter Char.isDigit) = false →
      cardHandle m = (m, false))
    ∧ luhnCheck ("1234567890123456".data) = false
    ∧ (∀ d ∈ (detectAndMaskPii "1234567890123456").detections,
        d.type ≠ PiiType.credit_card) := by
  refine ⟨?_, by decide, by decide⟩
  intro m _ _ hluhn
  simp only [cardHandle]
  rw [if_pos (Or.inr (Or.inr hluhn))]

/-- Witness for the amended C3 statement at the concrete Luhn-invalid run. -/
theorem c3_luhn_invalid_card_not_detected_witness :
    cardHandle "1234567890123456".data = ("1234567890123456".data, false) :=
  c3_luhn_invalid_card_not_detected.1 "1234567890123456".data
    (by decide) (by decide) (by decide)

/-- C9 counterexample: a request with no text, no URLs and no resource URLs
but with an image payload is *not* rejected — `handleProtect` proceeds and
produces a result, although the claim's "no usable input" condition (which
omits the image payload) holds. -/
theorem c9_input_error_counterexample :
    handleProtectCore "" [] [] 0 0 true false none
      = Except.ok (protectCore "" [] 0 0 true false none)
    ∧ ("" : String).data = [] := ⟨rfl, rfl⟩

/-- C9 amended: the handler rejects with the 400 `ProtectError` exactly when
there is no non-empty text, no URL, no resource URL *and no image payload*;
every other request produces a success result. -/
theorem c9_input_error_iff (text : String) (urls resourceUrls : List String)
    (tpc tf : Nat) (img itu : Bool) (m : Option ModelAssessment) :
    (handleProtectCore text urls resourceUrls tpc tf img itu m = .error protectNoInputError
      ↔ (text.data = [] ∧ urls = [] ∧ resourceUrls = [] ∧ img = false))
    ∧ (handleProtectCore text urls resourceUrls tpc tf img itu m = .error protectNoInputError
      ∨ ∃ out, handleProtectCore text urls resourceUrls tpc tf img itu m = .ok out) := by
  unfold handleProtectCore
  split_ifs with hc
  · rw [List.isEmpty_iff] at hc
    exact ⟨⟨fun _ => hc, fun _ => rfl⟩, Or.inl rfl⟩
  · rw [List.isEmpty_iff] at hc
    refine ⟨⟨fun h => absurd h (by simp), fun hcond => absurd hcond hc⟩, Or.inr ⟨_, rfl⟩⟩

/-- C6 counterexample: on the reachable hostname "example.com." (trailing
dot, as produced by `new URL("https://example.com./")`), the code returns
the raw lower-cased host "example.com." while the claimed description
(join of the last two labels) yields "example.com". -/
theorem c6_registrable_domain_counterexample :
    getRegistrableDomain "example.com." = "example.com."
    ∧ specRegistrableDomain "example.com." = "example.com"
    ∧ getRegistrableDomain "example.com." ≠ specRegistrableDomain "example.com." := by
  refine ⟨by decide, by decide, by decide⟩

/-- C6 amended: for every hostname whose dot-separated labels are all
non-empty, the extraction agrees with the claimed description (last three
labels when the last two form a public-suffix entry, else the last two), and
the three concrete examples of the claim hold. -/
theorem c6_registrable_domain_amended :
    (∀ h : String, (∀ l ∈ splitOnDot (lowerChars h.data), l ≠ []) →
      getRegistrableDomain h = specRegistrableDomain h)
    ∧ getRegistrableDomain "example.co.uk" = "example.co.uk"
    ∧ getRegistrableDomain "example.com" = "example.com"
    ∧ getRegistrableDomain "sub.example.com" = "example.com" := by
  refine ⟨?_, by decide, by decide, by decide⟩
  intro h hl
  have hfilter : (splitOnDot (lowerChars h.data)).filter (fun l => decide (l ≠ []))
      = splitOnDot (lowerChars h.data) :=
    List.filter_eq_self.mpr (fun l hlmem => decide_eq_true (hl l hlmem))
  simp only [getRegistrableDomain, specRegistrableDomain, getRegistrableDomainL, hfilter]
  by_cases hlen : (splitOnDot (lowerChars h.data)).length ≤ 2
  · rw [if_pos hlen]
    have h2 : takeRight 2 (splitOnDot (lowerChars h.data)) = splitOnDot (lowerChars h.data) := by
      unfold takeRight
      rw [Nat.sub_eq_zero_of_le hlen]
      exact List.drop_zero _
    have h3 : takeRight 3 (splitOnDot (lowerChars h.data)) = splitOnDot (lowerChars h.data) := by
      unfold takeRight
      rw [Nat.sub_eq_zero_of_le (le_trans hlen (by omega))]
      exact List.drop_zero _
    split_ifs
    · rw [h3, joinDots_splitOnDot]
    · rw [h2, joinDots_splitOnDot]
  · rw [if_neg hlen]
    have h3le : 3 ≤ (splitOnDot (lowerChars h.data)).length := by omega
    by_cases hcont :
        SECOND_LEVEL_TLDS.contains (joinDots (takeRight 2 (splitOnDot (lowerChars h.data)))) = true
    · rw [if_pos ⟨hcont, h3le⟩, if_pos hcont]
    · rw [if_neg (fun hand => hcont hand.1), if_neg hcont]

/-- Witness for the amended C6 statement at "sub.example.com". -/
theorem c6_registrable_domain_amended_witness :
    getRegistrableDomain "sub.example.com" = specRegistrableDomain "sub.example.com" :=
  c6_registrable_domain_amended.1 "sub.example.com" (by decide)

/-- C2 counterexample: on a flag list with two high-severity flags, one of
them the call-to-action category, the implemented score includes the +18
bonus the claimed formula omits (86 versus 68, both below the clamp). -/
theorem c2_phishing_score_counterexample :
    computePhishingRiskScore c2Flags [] 0 = 86
    ∧ specPhishingScoreClaimed c2Flags [] 0 = 68
    ∧ computePhishingRiskScore c2Flags [] 0 ≠ specPhishingScoreClaimed c2Flags [] 0 := by
  refine ⟨by decide, by decide, by decide⟩

/-- C2 amended: the phishing sub-score equals the claimed formula extended
with exactly two further terms: +30 when urgency, call-to-action,
(payment-pressure or credential-request) and data-loss-threat flags all
co-occur, and +18 when at least two high-severity flags co-occur with a
call-to-action flag. -/
theorem c2_phishing_score_amended (flags : List PhishingFlag)
    (lookalikes : List LookalikeMatch) (urlCount : Nat) :
    computePhishingRiskScore flags lookalikes urlCount
      = specPhishingScoreFull flags lookalikes urlCount := by
  simp only [computePhishingRiskScore, specPhishingScoreFull, hasFlagType,
    Bool.and_eq_true, Bool.or_eq_true, List.any_eq_true, beq_iff_eq, and_assoc]

/-- C5: all three sub-scores and the fused index are bounded by 100 for every
input (they are natural numbers by construction, so the lower bound 0 also
holds). -/
theorem c5_scores_in_range (text : String) (urls : List String) (tpc tf : Nat)
    (img itu : Bool) (m : Option ModelAssessment) :
    (protectCore text urls tpc tf img itu m).phishingScore ≤ 100
    ∧ (protectCore text urls tpc tf img itu m).piiScore ≤ 100
    ∧ (protectCore text urls tpc tf img itu m).privacyScore ≤ 100
    ∧ (protectCore text urls tpc tf img itu m).veracityIndex ≤ 100 := by
  simp only [protectCore]
  refine ⟨clamp_le _ 0 100, clamp_le _ 0 100, clamp_le _ 0 100, ?_⟩
  split
  · exact clamp_le _ 0 100
  · split_ifs <;> first
      | omega
      | exact Nat.max_le.mpr ⟨clamp_le _ 0 100, by omega⟩
      | exact clamp_le _ 0 100

/-- Helper: the zero-floor branch never fires once the critical override has
raised the heuristic index to at least 97. -/
theorem le_ite_max97 (b : Nat) (itu : Bool) :
    97 ≤ (if max b 97 = 0 then (if itu then 1 else 2) else max b 97) := by
  have h := le_max_right b 97
  split_ifs with h0 h1
  · omega
  · omega
  · exact h

set_option maxHeartbeats 4000000 in
set_option maxRecDepth 8000 in
/-- C1 counterexample: on the scenario-A text all critical flags are present,
but an image-mode request whose model assessment carries a signal (non-empty
summary) with a zero model score is blended `round(0.55·h + 0.45·m)`, and the
returned fused index is 53 < 97. -/
theorem c1_critical_override_counterexample :
    hasCriticalScamPattern (buildPhishingFlags scenarioAText) = true
    ∧ (protectCore scenarioAText [] 0 0 true false
        (some modelZeroAssessment)).veracityIndex = 53
    ∧ (protectCore scenarioAText [] 0 0 true false
        (some modelZeroAssessment)).veracityIndex < 97 := by
  refine ⟨by decide, by decide, by decide⟩

/-- C1 amended: whenever the critical scam pattern holds and no model
assessment is present, the returned fused index is at least 97 (the
critical-pattern override on the heuristic index). -/
theorem c1_critical_override_without_model (text : String) (urls : List String)
    (tpc tf : Nat) (img itu : Bool)
    (hcrit : hasCriticalScamPattern (buildPhishingFlags text) = true) :
    97 ≤ (protectCore text urls tpc tf img itu none).veracityIndex := by
  have hne : text.data.isEmpty = false := by
    cases hdata : text.data with
    | nil =>
      exfalso
      have hz : buildPhishingFlags text = [] := by
        unfold buildPhishingFlags
        rw [hdata]
        decide
      rw [hz] at hcrit
      exact absurd hcrit (by decide)
    | cons c cs => rfl
  simp only [protectCore, hasModelSignal]
  rw [hne, hcrit]
  simp only [Bool.and_false, Bool.false_eq_true, if_false, if_true]
  exact le_ite_max97 _ itu

set_option maxHeartbeats 4000000 in
set_option maxRecDepth 8000 in
/-- Witness for the amended C1 statement: the scenario-A text with no model
assessment yields a fused index of at least 97. -/
theorem c1_critical_override_without_model_witness :
    97 ≤ (protectCore scenarioAText [] 0 0 false false none).veracityIndex :=
  c1_critical_override_without_model scenarioAText [] 0 0 false false (by decide)

set_option maxHeartbeats 4000000 in
set_option maxRecDepth 8000 in
/-- C8 (code bug): for the input URL `https://paypa1-secure.com/login` the
domain analyzer returns only the low-severity digits/hyphens signal — no
match references paypal and none is high severity: the hostname does not
contain the literal "paypal" and the normalized second-level label
"paypa1secure" is at edit distance 7 from "paypal", so both brand rules
miss it. -/
theorem c8_lookalike_paypa1_secure_eval :
    buildLookalikeMatches ["https://paypa1-secure.com/login"]
      = [⟨"https://paypa1-secure.com/login", "paypa1-secure.com",
          "Domain includes digits or hyphens (common in phishing kits).", .low⟩]
    ∧ (∀ mch ∈ buildLookalikeMatches ["https://paypa1-secure.com/login"],
        mch.severity ≠ Severity.high)
    ∧ levenshteinDistance "paypa1secure" "paypal" = 7 := by
  refine ⟨by decide, by decide, by decide⟩

end Protect
